import Mathlib

/-!
Verification of the NexusTrading ICT signal engine core.

Shallow embedding of the Python sources:
  src/ict_strategy.py               (LearningEngine, ICTProductionEngine)
  src/smt_detector.py               (SMTDetector)
  src/execution_timeframe_selector.py (ExecutionTimeframeSelector)

Modeling conventions:
* Python floats are modeled as exact rationals (ℚ).  Division by zero in ℚ
  yields 0; every place where the source can divide by zero is either guarded
  in the source itself (risk/ATR checks) or out of scope of the claims
  (zero prices), and each such spot is noted at its definition.
* `random.random() > 0.6` inside `_evaluate_smt` is modeled by an explicit
  boolean oracle argument; wall-clock timestamps (`time.time()`,
  `datetime.now()`) carry no decision logic on the verified paths and are
  dropped from the state.
* `ict_strategy.py` references the global name `pd` (line 158,
  `pd.DataFrame(...)`) without importing pandas; evaluating that name raises
  `NameError` at runtime.  The embedding makes this explicit: `detect_setup`
  returns `Except PyError _`, and the branch that reaches the `pd.DataFrame`
  call returns `.error .nameErrorPd`.  Because the in-place mutations
  performed before that point are none, the engine state is returned
  unchanged alongside the error.
* pandas `std` is the sample standard deviation (ddof = 1); the source only
  uses it in the comparison `std * 100 < 0.05`, which is embedded as the
  equivalent exact-variance comparison (squaring both sides, both
  non-negative); with fewer than two data points pandas yields NaN and the
  comparison is False, embedded as an explicit length guard.
-/

namespace NexusTrading

attribute [local semireducible] Rat.mul Rat.ofScientific Rat.add Rat.sub Rat.inv

/-- Python `max(a, b)` / numpy pairwise max, written with an explicit
comparison so that the kernel can evaluate it on concrete rationals (it
equals `max`, see `pymax_eq_max`). -/
def pymax (a b : ℚ) : ℚ := if a < b then b else a

/-- Python `min(a, b)` (equals `min`, see `pymin_eq_min`). -/
def pymin (a b : ℚ) : ℚ := if b < a then b else a

/-- numpy `np.clip(x, lo, hi)` for `lo ≤ hi`. -/
def qclip (x lo hi : ℚ) : ℚ := pymax lo (pymin hi x)

/-- Last `n` elements of a list (Python `l[-n:]`). -/
def lastN {α : Type} (n : ℕ) (l : List α) : List α := l.drop (l.length - n)

/-- Python `max` over a list of numbers (meaningful on non-empty lists). -/
def listMax : List ℚ → ℚ
  | [] => 0
  | x :: xs => xs.foldl pymax x

/-- Python `min` over a list of numbers (meaningful on non-empty lists). -/
def listMin : List ℚ → ℚ
  | [] => 0
  | x :: xs => xs.foldl pymin x

/-! ## LearningEngine (src/ict_strategy.py lines 8-58) -/

/-- Trade outcome fed back into the learning engine (`'WIN'` / `'LOSS'`). -/
inductive Outcome where
  | win
  | loss
deriving DecidableEq

/-- `LearningEngine` mutable state: `performance_history` and
`confidence_multiplier` (`feature_weights` are never mutated by the source
and are kept as the selector's weight record below). -/
structure LearningState (φ : Type) where
  performance_history : List (φ × Outcome)
  confidence_multiplier : ℚ

/-- `LearningEngine.__init__`: empty history, multiplier 1.0. -/
def LearningState.init (φ : Type) : LearningState φ := ⟨[], 1⟩

/-- `adjustment = 0.005 if outcome == 'WIN' else -0.005` (line 29). -/
def adjustment : Outcome → ℚ
  | .win => 0.005
  | .loss => -0.005

/-- `LearningEngine.record_outcome` (lines 24-37): appends the record and
clamps `confidence_multiplier + adjustment * 4` to [0.5, 1.5].  The returned
rational is the `new_confidence` entry of the result dict (the log string is
dropped). -/
def record_outcome {φ : Type} (s : LearningState φ) (setup_features : φ)
    (outcome : Outcome) : LearningState φ × ℚ :=
  let m := pymax 0.5 (pymin 1.5 (s.confidence_multiplier + adjustment outcome * 4))
  (⟨s.performance_history ++ [(setup_features, outcome)], m⟩, m)

/-- `LearningEngine.get_adaptive_risk` (lines 39-58), as a function of the
current `confidence_multiplier` and the `ml_confidence` argument. -/
def get_adaptive_risk (confidence_multiplier ml_confidence : ℚ) : ℚ :=
  let risk : ℚ :=
    if ml_confidence < 0.7 then 0.1
    else if ml_confidence < 0.85 then 0.4
    else 0.8
  pymax 0.1 (pymin 0.8 (risk * confidence_multiplier))

/-- The base-risk tier exactly as the specification words it:
<0.70 → 0.1; [0.70, 0.85) → 0.4; ≥0.85 → 0.8. -/
def specRiskTier (c : ℚ) : ℚ :=
  if c < 0.7 then 0.1 else if c < 0.85 then 0.4 else 0.8

/-- Confidence multiplier after folding a sequence of outcomes through
`record_outcome`, starting from the initial value 1.0. -/
def multiplier_after (outs : List Outcome) : ℚ :=
  outs.foldl (fun m o => pymax 0.5 (pymin 1.5 (m + adjustment o * 4))) 1

/-! ## ICTProductionEngine structural state (src/ict_strategy.py lines 60-233) -/

/-- Sweep direction (`'BUY_SIDE'` / `'SELL_SIDE'`). -/
inductive SweepSide where
  | buySide
  | sellSide
deriving DecidableEq

/-- `self.dealing_range = {'high': 0, 'low': 0, 'eq': 0}`. -/
structure DealingRange where
  high : ℚ
  low : ℚ
  eq : ℚ
deriving DecidableEq

/-- Active sweep record (line 137-142); the `time` entry is a wall-clock
timestamp with no decision logic and is dropped. -/
structure SweepEvent where
  type : SweepSide
  price : ℚ
  aggression : ℚ
deriving DecidableEq

/-- `'PREMIUM'` / `'DISCOUNT'`. -/
inductive Bias where
  | premium
  | discount
deriving DecidableEq

/-- SMT divergence direction (`'bearish'` / `'bullish'`). -/
inductive SmtTy where
  | bearish
  | bullish
deriving DecidableEq

/-- Engine state: the six per-timeframe buffers (`mtf_history`), the dealing
range, bias, and the setup-tracking fields.  Buffer entries record only the
price: `update_data` stores `{'price': p, 'time': ..., 'high': p, 'low': p,
'close': p}`, so the single rational carries all information.
`fvg_zone` is initialized to `None` and never assigned a non-`None` value
anywhere in the source, so it is omitted. -/
structure EngineState where
  m1 : List ℚ
  m2 : List ℚ
  m3 : List ℚ
  m4 : List ℚ
  m5 : List ℚ
  m15 : List ℚ
  dealing_range : DealingRange
  bias : Option Bias
  active_sweep : Option SweepEvent
  mss_detected : Bool
deriving DecidableEq

/-- `ICTProductionEngine.__init__` (lines 65-83). -/
def EngineState.init : EngineState :=
  ⟨[], [], [], [], [], [], ⟨0, 0, 0⟩, none, none, false⟩

/-- Append to a buffer and drop the oldest entry beyond `max_history = 200`
(lines 106-108). -/
def push_bounded (l : List ℚ) (p : ℚ) : List ℚ :=
  let l2 := l ++ [p]
  if l2.length > 200 then l2.drop 1 else l2

/-- `ICTProductionEngine._update_htf_structure` (lines 120-130). -/
def update_htf_structure (s : EngineState) : EngineState :=
  if s.m15.length < 20 then s
  else
    let prices := lastN 20 s.m15
    let high := listMax prices
    let low := listMin prices
    let eq := (high + low) / 2
    let current_price := s.m15.getLastD 0
    { s with dealing_range := ⟨high, low, eq⟩,
             bias := some (if current_price > eq then .premium else .discount) }

/-- `ICTProductionEngine.update_data` (lines 101-111): ingest one price for
one timeframe; unknown timeframes are silently ignored. -/
def update_data (s : EngineState) (price : ℚ) (timeframe : ℕ) : EngineState :=
  match timeframe with
  | 1 => { s with m1 := push_bounded s.m1 price }
  | 2 => { s with m2 := push_bounded s.m2 price }
  | 3 => { s with m3 := push_bounded s.m3 price }
  | 4 => { s with m4 := push_bounded s.m4 price }
  | 5 => { s with m5 := push_bounded s.m5 price }
  | 15 => update_htf_structure { s with m15 := push_bounded s.m15 price }
  | _ => s

/-- `ICTProductionEngine._check_sweeps` (lines 193-196). -/
def check_sweeps (dr : DealingRange) (price : ℚ) : Option SweepSide :=
  if dr.high > 0 ∧ price > dr.high then some .buySide
  else if dr.low > 0 ∧ price < dr.low then some .sellSide
  else none

/-- `ICTProductionEngine._calculate_sweep_aggression` (lines 205-208).
ℚ-division convention: a zero `price` would divide by zero (ZeroDivisionError
in Python); no claim touches zero prices. -/
def calculate_sweep_aggression (dr : DealingRange) (price : ℚ)
    (sweep_type : SweepSide) : ℚ :=
  let level := if sweep_type = .buySide then dr.high else dr.low
  |price - level| / (price * 0.001)

/-- `ICTProductionEngine._evaluate_smt` (lines 175-191), with
`random.random() > 0.6` as the boolean oracle `rand_gt`.  Only the
`smt_type` entry of the returned dict is read by `detect_setup`. -/
def evaluate_smt (s : EngineState) (rand_gt : Bool) : Option SmtTy :=
  match s.active_sweep with
  | none => none
  | some ev =>
    match ev.type with
    | .buySide => if rand_gt then some .bearish else none
    | .sellSide => if rand_gt then some .bullish else none

/-- The runtime error the engine can raise: `ict_strategy.py` never imports
pandas, so evaluating `pd.DataFrame` (line 158) raises
`NameError: name 'pd' is not defined`. -/
inductive PyError where
  | nameErrorPd
deriving DecidableEq

/-- Observable output of `detect_setup`.  The ETS-selection output
(`{'action': ...}`, lines 165-171) is unreachable: the `pd.DataFrame` call
on line 158 raises before `select_best_setup` can run, so no constructor for
it is needed. -/
inductive DetectOutput where
  | sweepSmt (side : SweepSide) (smt : SmtTy)
  | sweepOnly (side : SweepSide)
deriving DecidableEq

/-- `ICTProductionEngine.detect_setup` (lines 132-173).  Returns the Python
result (`None`, a log dict — here reduced to its decision content — or a
raised exception) together with the post-call engine state.  Python
truthiness: `if secondary_price:` is false for `None` and for `0.0`. -/
def detect_setup (s : EngineState) (current_price : ℚ)
    (secondary_price : Option ℚ) (rand_gt : Bool) :
    Except PyError (Option DetectOutput) × EngineState :=
  match check_sweeps s.dealing_range current_price with
  | some sw =>
    let ev : SweepEvent :=
      ⟨sw, current_price, calculate_sweep_aggression s.dealing_range current_price sw⟩
    let s2 := { s with active_sweep := some ev }
    let smt_confirmed :=
      match secondary_price with
      | some sec => if sec ≠ 0 then evaluate_smt s2 rand_gt else none
      | none => none
    match smt_confirmed with
    | some ty => (.ok (some (.sweepSmt sw ty)), s2)
    | none => (.ok (some (.sweepOnly sw)), s2)
  | none =>
    match s.active_sweep with
    | some _ =>
      if 10 ≤ s.m1.length ∨ 10 ≤ s.m2.length ∨ 10 ≤ s.m3.length ∨
         10 ≤ s.m4.length ∨ 10 ≤ s.m5.length
      then (.error .nameErrorPd, s)
      else (.ok none, s)
    | none => (.ok none, s)

/-! ## SMTDetector (src/smt_detector.py) -/

/-- One row of the OHLC dataframe (only the columns the detector reads). -/
structure Bar where
  high : ℚ
  low : ℚ
  close : ℚ
deriving DecidableEq

instance : Inhabited Bar := ⟨⟨0, 0, 0⟩⟩

/-- A confirmed fractal pivot: `{'price': ..., 'index': i}` (the stored
`time` column is unused by the analysis). -/
structure Pivot where
  price : ℚ
  index : ℕ
deriving DecidableEq

/-- Detected pivots, highs and lows. -/
structure Pivots where
  highs : List Pivot
  lows : List Pivot
deriving DecidableEq

/-- `df.iloc[i-w : i+w+1]` for `i ≥ w` (the symmetric pivot window). -/
def window_slice (df : List Bar) (i w : ℕ) : List Bar :=
  (df.drop (i - w)).take (2 * w + 1)

/-- `SMTDetector.detect_fractal_pivots` (lines 16-41): for
`i ∈ range(w, len(df) - w)`, emit a high pivot when `high[i]` equals the max
of the window, a low pivot when `low[i]` equals the min. -/
def detect_fractal_pivots (w : ℕ) (df : List Bar) : Pivots :=
  let idxs := (List.range (df.length - w)).drop w
  { highs := idxs.filterMap (fun i =>
      let b := df.getD i default
      if b.high = listMax ((window_slice df i w).map Bar.high)
      then some ⟨b.high, i⟩ else none)
    lows := idxs.filterMap (fun i =>
      let b := df.getD i default
      if b.low = listMin ((window_slice df i w).map Bar.low)
      then some ⟨b.low, i⟩ else none) }

/-- `xs[-2:]` unpacked as `(x2, x1)` when the list has ≥ 2 elements,
`(None, None)` otherwise (lines 54-58). -/
def last2 {α : Type} (l : List α) : Option (α × α) :=
  match l.reverse with
  | x1 :: x2 :: _ => some (x2, x1)
  | _ => none

/-- `abs(p['index'] - s['index'])` on integer indices. -/
def idx_gap (p s : Pivot) : ℕ := ((p.index : ℤ) - (s.index : ℤ)).natAbs

/-- True ranges after the first row: `max(high-low, |high-prev_close|,
|low-prev_close|)`. -/
def tr_rest (prev_close : ℚ) : List Bar → List ℚ
  | [] => []
  | b :: rest =>
    pymax (b.high - b.low) (pymax |b.high - prev_close| |b.low - prev_close|) ::
      tr_rest b.close rest

/-- The true-range series: row 0 has no previous close (`close.shift()` is
NaN there and pandas' row-wise `max` skips NaN), so its TR is `high - low`. -/
def true_ranges : List Bar → List ℚ
  | [] => []
  | b :: rest => (b.high - b.low) :: tr_rest b.close rest

/-- `SMTDetector._calculate_atr` (lines 91-96): rolling mean of the last
`period` true ranges.  With fewer than `period` rows pandas yields NaN; the
sole consumer tests `atr > 0`, which is False for NaN exactly as for 0, so
NaN is embedded as 0. -/
def calculate_atr (df : List Bar) (period : ℕ) : ℚ :=
  let trs := true_ranges df
  if trs.length < period then 0
  else (lastN period trs).sum / (period : ℚ)

/-- `SMTDetector._check_liquidity_proximity` (lines 98-103). -/
def check_liquidity_proximity (price : ℚ) (levels : List ℚ) : Bool :=
  levels.any (fun level => |price - level| < price * 0.0005)

/-- The divergence result dict. -/
structure DivResult where
  smt_type : Option SmtTy
  strength_score : ℚ
  swing_reference_primary : ℚ
  swing_reference_secondary : ℚ
  time_alignment_score : ℚ
  liquidity_context_valid : Bool
deriving DecidableEq

/-- `SMTDetector._empty_result` (lines 105-113). -/
def empty_result : DivResult := ⟨none, 0, 0, 0, 0, false⟩

/-- `SMTDetector._build_result` (lines 75-89). -/
def build_result (smt_type : SmtTy) (p_pivot s_pivot : Pivot) (df : List Bar)
    (context_levels : List ℚ) (tolerance : ℕ) : DivResult :=
  let atr := calculate_atr df 14
  let strength := if atr > 0 then |p_pivot.price - s_pivot.price| / atr else 0
  { smt_type := some smt_type
    strength_score := qclip strength 0 1
    swing_reference_primary := p_pivot.price
    swing_reference_secondary := s_pivot.price
    time_alignment_score := 1 - (idx_gap p_pivot s_pivot : ℚ) / (tolerance : ℚ)
    liquidity_context_valid := check_liquidity_proximity p_pivot.price context_levels }

/-- The bearish test of `analyze_divergence` (lines 60-65): both series have
at least 2 high pivots, primary higher-high, secondary lower-or-equal high,
index gap within tolerance; yields the `(p_h1, s_h1)` pair used to build the
result.  The price check and the nested alignment check are merged into one
conjunction: when either fails the source falls through to the bullish
test, which a `none` here reproduces. -/
def bearish_pair (tolerance : ℕ) (pp sp : Pivots) : Option (Pivot × Pivot) :=
  match last2 pp.highs, last2 sp.highs with
  | some (p_h2, p_h1), some (s_h2, s_h1) =>
    if p_h2.price < p_h1.price ∧ s_h1.price ≤ s_h2.price ∧
       idx_gap p_h1 s_h1 ≤ tolerance
    then some (p_h1, s_h1) else none
  | _, _ => none

/-- The bullish test (lines 67-71): mirror condition on low pivots. -/
def bullish_pair (tolerance : ℕ) (pp sp : Pivots) : Option (Pivot × Pivot) :=
  match last2 pp.lows, last2 sp.lows with
  | some (p_l2, p_l1), some (s_l2, s_l1) =>
    if p_l1.price < p_l2.price ∧ s_l2.price ≤ s_l1.price ∧
       idx_gap p_l1 s_l1 ≤ tolerance
    then some (p_l1, s_l1) else none
  | _, _ => none

/-- `SMTDetector.analyze_divergence` (lines 43-73), parametrized by the
constructor parameters `pivot_window` (default 5) and `tolerance`
(default 3); `context_levels` is `liquidity_context['levels']`. -/
def analyze_divergence (w tolerance : ℕ) (primary_df secondary_df : List Bar)
    (context_levels : List ℚ) : DivResult :=
  if (detect_fractal_pivots w primary_df).highs = [] ∨
     (detect_fractal_pivots w secondary_df).highs = [] then empty_result
  else
    match bearish_pair tolerance (detect_fractal_pivots w primary_df)
        (detect_fractal_pivots w secondary_df) with
    | some (p1, s1) => build_result .bearish p1 s1 primary_df context_levels tolerance
    | none =>
      match bullish_pair tolerance (detect_fractal_pivots w primary_df)
          (detect_fractal_pivots w secondary_df) with
      | some (p1, s1) => build_result .bullish p1 s1 primary_df context_levels tolerance
      | none => empty_result

/-! ## ExecutionTimeframeSelector (src/execution_timeframe_selector.py) -/

/-- `self.weights`: the five scoring-factor weights. -/
structure Weights where
  displacement : ℚ
  fvg_efficiency : ℚ
  rr_score : ℚ
  volatility_adj : ℚ
  structure_clarity : ℚ
deriving DecidableEq

/-- The default / LearningEngine weight set (lines 11-17 of the selector,
lines 15-21 of `ict_strategy.py`). -/
def default_weights : Weights := ⟨0.30, 0.20, 0.25, 0.10, 0.15⟩

/-- `'BUY'` / `'SELL'`. -/
inductive Dir where
  | buy
  | sell
deriving DecidableEq

/-- A candidate setup dict.  The Python dict grows (`tf`, `score`,
`confluence_score` are added after construction); the record carries them
from the start, zero-initialized. -/
structure Setup where
  type : Dir
  entry : ℚ
  sl : ℚ
  tp : ℚ
  fvg_top : ℚ
  fvg_bottom : ℚ
  displacement_mag : ℚ
  tf : ℕ
  score : ℚ
  confluence_score : ℚ
deriving DecidableEq

instance : Inhabited Setup := ⟨⟨.buy, 0, 0, 0, 0, 0, 0, 0, 0, 0⟩⟩

/-- `df.iloc[-5:-1]`: the four bars preceding the most recent one. -/
def slice_m5_m1 (df : List Bar) : List Bar := (df.drop (df.length - 5)).take 4

/-- `ExecutionTimeframeSelector._validate_tf_structure` (lines 47-81).
`fvg_present` is the constant `True` placeholder in the source, so the
candidate condition reduces to `mss_detected`.  `is_buy = bias == 'DISCOUNT'`
(any other bias value, including `None`, selects the sell branch).
ℚ-division convention: `last_price = 0` would divide by zero. -/
def validate_tf_structure (df : List Bar) (bias : Option Bias)
    (sweep_extreme : ℚ) : Option Setup :=
  if df.length < 10 then none
  else
    let last_price := (df.getLastD default).close
    let is_buy := bias = some .discount
    let mss_detected :=
      if is_buy then listMax ((slice_m5_m1 df).map Bar.high) < last_price
      else last_price < listMin ((slice_m5_m1 df).map Bar.low)
    if mss_detected then
      some { type := if is_buy then .buy else .sell
             entry := last_price
             sl := sweep_extreme
             tp := last_price * (if is_buy then 1.02 else 0.98)
             fvg_top := last_price * 1.001
             fvg_bottom := last_price * 0.999
             displacement_mag :=
               |last_price - (df.getD (df.length - 5) default).close| / (last_price * 0.001)
             tf := 0
             score := 0
             confluence_score := 0 }
    else none

/-- `series.pct_change()` tail recursion: `(c - prev) / prev` per step.
ℚ-division convention: a zero previous close yields 0 here, ±inf/NaN in
pandas; the claims use nonzero prices throughout. -/
def pct_go (prev : ℚ) : List ℚ → List ℚ
  | [] => []
  | c :: rest => (c - prev) / prev :: pct_go c rest

/-- `df['close'].pct_change()` with the leading NaN dropped (pandas `std`
skips it). -/
def pct_changes : List ℚ → List ℚ
  | [] => []
  | c :: rest => pct_go c rest

/-- Arithmetic mean. -/
def qmean (xs : List ℚ) : ℚ := xs.sum / (xs.length : ℚ)

/-- Sample variance (pandas `std` squared, ddof = 1). -/
def sample_var (xs : List ℚ) : ℚ :=
  (xs.map (fun x => (x - qmean xs) ^ 2)).sum / ((xs.length : ℚ) - 1)

/-- The volatility test `df['close'].pct_change().std() * 100 < 0.05`
(line 102), embedded exactly by squaring both (non-negative) sides:
`std * 100 < 0.05 ↔ var * 10000 < 0.0025`.  With fewer than two returns
pandas' std is NaN and the comparison is False. -/
def low_vol (closes : List ℚ) : Bool :=
  let xs := pct_changes closes
  decide (2 ≤ xs.length) && decide (sample_var xs * 10000 < 1 / 400)

/-- `ExecutionTimeframeSelector._calculate_quality_score` (lines 83-118). -/
def calculate_quality_score (w : Weights) (setup : Setup) (df : List Bar) : ℚ :=
  let disp_score := qclip (setup.displacement_mag / 2) 0 1
  let fvg_size := |setup.fvg_top - setup.fvg_bottom|
  let fvg_eff := 1 - qclip (fvg_size / (setup.displacement_mag * 10)) 0 1
  let risk := |setup.entry - setup.sl|
  let reward := |setup.tp - setup.entry|
  let rr := if risk > 0 then reward / risk else 0
  let rr_sc := qclip (rr / 3) 0 1
  let lv := low_vol (df.map Bar.close)
  let vol_adj : ℚ := 0.5
  let vol_adj := if setup.tf = 1 ∧ lv = true then 0.2 else vol_adj
  let vol_adj := if 3 ≤ setup.tf ∧ lv = true then 0.8 else vol_adj
  let clarity : ℚ := 0.8
  w.displacement * disp_score + w.fvg_efficiency * fvg_eff +
    w.rr_score * rr_sc + w.volatility_adj * vol_adj +
    w.structure_clarity * clarity

/-- The per-timeframe loop of `select_best_setup` (lines 26-31): validate,
then attach `tf` and the quality score.  `mtf_data` is an insertion-ordered
dict, modeled as an association list in iteration order. -/
def valid_setups (w : Weights) (mtf_data : List (ℕ × List Bar))
    (htf_bias : Option Bias) (htf_sweep_extreme : ℚ) : List Setup :=
  mtf_data.filterMap (fun p =>
    (validate_tf_structure p.2 htf_bias htf_sweep_extreme).map (fun st =>
      let st1 := { st with tf := p.1 }
      { st1 with score := calculate_quality_score w st1 p.2 }))

/-- Inner loop of `_apply_confluence_bonus` (lines 126-130): starting at
enumeration index `j`, add 0.15 for every other candidate whose gap range
contains `s1`'s (`s1.fvg_bottom >= s2.fvg_bottom and s1.fvg_top <=
s2.fvg_top`). -/
def inner_bonus (s1 : Setup) (i : ℕ) : ℕ → List Setup → ℚ
  | _, [] => 0
  | j, s2 :: rest =>
    (if j ≠ i ∧ s2.fvg_bottom ≤ s1.fvg_bottom ∧ s1.fvg_top ≤ s2.fvg_top
     then 0.15 else 0) + inner_bonus s1 i (j + 1) rest

/-- The number of nesting relationships the inner loop finds for `s1` at
enumeration index `i` (each contributes exactly 0.15). -/
def nest_count (s1 : Setup) (i : ℕ) : ℕ → List Setup → ℕ
  | _, [] => 0
  | j, s2 :: rest =>
    (if j ≠ i ∧ s2.fvg_bottom ≤ s1.fvg_bottom ∧ s1.fvg_top ≤ s2.fvg_top
     then 1 else 0) + nest_count s1 i (j + 1) rest

/-- `ExecutionTimeframeSelector._apply_confluence_bonus` (lines 120-133).
The Python loop mutates each `s1` in place, but the inner loop reads only
`fvg_bottom` / `fvg_top` (never mutated) and the outer update reads `s1`'s
own pre-update score, so mapping over the ORIGINAL list is an exact
embedding. -/
def apply_confluence (setups : List Setup) : List Setup :=
  (List.range setups.length).map (fun i =>
    let s1 := setups.getD i default
    let b := inner_bonus s1 i 0 setups
    { s1 with confluence_score := b, score := pymin (s1.score + b) 1 })

/-- Python `max(l, key=f)` on a non-empty list: the FIRST element attaining
the maximal key (a later element replaces the current best only when
strictly greater). -/
def max_by_first {α : Type} (f : α → ℚ) : List α → Option α
  | [] => none
  | x :: xs =>
    match max_by_first f xs with
    | none => some x
    | some m => if f x < f m then some m else some x

/-- `ExecutionTimeframeSelector.select_best_setup` (lines 20-45), with the
constructor's `min_quality_score = 0.60`. -/
def select_best_setup (w : Weights) (mtf_data : List (ℕ × List Bar))
    (htf_bias : Option Bias) (htf_sweep_extreme : ℚ) : Option Setup :=
  if (valid_setups w mtf_data htf_bias htf_sweep_extreme).isEmpty then none
  else
    match max_by_first Setup.score
        (apply_confluence (valid_setups w mtf_data htf_bias htf_sweep_extreme)) with
    | some best => if 0.6 ≤ best.score then some best else none
    | none => none

/-! ## Concrete inputs used by witnesses and counterexamples -/

/-- Feed a sequence of `(price, timeframe)` ticks through `update_data`. -/
def feed (s : EngineState) (ticks : List (ℚ × ℕ)) : EngineState :=
  ticks.foldl (fun st p => update_data st p.1 p.2) s

/-- Engine state reached from `__init__` by 20 reference-timeframe (15m)
ticks at price 100 followed by 10 one-minute ticks at price 100. -/
def s_c1_a : EngineState :=
  feed EngineState.init
    (List.replicate 20 ((100 : ℚ), 15) ++ List.replicate 10 ((100 : ℚ), 1))

/-- State after `detect_setup(101)` on `s_c1_a`: price 101 exceeds the
dealing-range high 100, so a buy-side sweep becomes active. -/
def s_c1_b : EngineState := (detect_setup s_c1_a 101 none false).2

/-- 19 reference-timeframe prices already buffered (one short of 20). -/
def s_c9 : EngineState := { EngineState.init with m15 := List.replicate 19 100 }

/-- Primary series for the alignment counterexample: flat highs 5 with
spikes 10 at index 6 and 11 at index 12 (high pivots exactly there). -/
def P5 : List Bar :=
  (List.range 20).map (fun i =>
    ⟨if i = 6 then 10 else if i = 12 then 11 else 5, 1, 4⟩)

/-- Secondary series: equal high spikes 10 at indices 5 and 9, so the last
two high pivots are equal and the last one sits 3 bars from the primary's. -/
def S5 : List Bar :=
  (List.range 20).map (fun i =>
    ⟨if i = 5 ∨ i = 9 then 10 else 5, 1, 4⟩)

/-- Variant secondary series with the last high pivot at index 11 (gap 1
from the primary's pivot at index 12). -/
def S5b : List Bar :=
  (List.range 20).map (fun i =>
    ⟨if i = 5 ∨ i = 11 then 10 else 5, 1, 4⟩)

/-- Primary series with strictly increasing highs (hence zero high pivots)
and low pivots 50 at index 6 and 40 at index 12 (a lower low). -/
def P10 : List Bar :=
  (List.range 20).map (fun i =>
    ⟨((100 + i : ℕ) : ℚ), if i = 6 then 50 else if i = 12 then 40 else 60,
     ((100 + i : ℕ) : ℚ)⟩)

/-- Secondary series with strictly increasing highs (zero high pivots) and
equal low pivots 45 at indices 6 and 12 (a higher-or-equal low, index gap 0
from the primary's). -/
def S10 : List Bar :=
  (List.range 20).map (fun i =>
    ⟨((100 + i : ℕ) : ℚ), if i = 6 ∨ i = 12 then 45 else 60,
     ((100 + i : ℕ) : ℚ)⟩)

/-- A candidate whose gap range [2, 3] sits strictly inside `B7`'s. -/
def A7 : Setup := ⟨.buy, 10, 5, 10.2, 3, 2, 0, 1, 0.5, 0⟩

/-- A candidate with gap range [1, 4]. -/
def B7 : Setup := ⟨.buy, 10, 5, 10.2, 4, 1, 0, 2, 0.7, 0⟩

/-- A one-timeframe selector input: ten bars with rising closes 1..10, so
the discount-bias buy validation passes (close 10 exceeds the max 9 of the
four preceding highs). -/
def M6 : List (ℕ × List Bar) :=
  [(1, (List.range 10).map (fun i =>
    ⟨((i + 1 : ℕ) : ℚ), ((i + 1 : ℕ) : ℚ), ((i + 1 : ℕ) : ℚ)⟩))]

/-! ## Helper lemmas -/

lemma pymax_eq_max (a b : ℚ) : pymax a b = max a b := by
  unfold pymax
  split_ifs with h
  · exact (max_eq_right h.le).symm
  · exact (max_eq_left (not_lt.mp h)).symm

lemma pymin_eq_min (a b : ℚ) : pymin a b = min a b := by
  unfold pymin
  split_ifs with h
  · exact (min_eq_right h.le).symm
  · exact (min_eq_left (not_lt.mp h)).symm

lemma le_foldl_max (xs : List ℚ) : ∀ (x : ℚ), x ≤ xs.foldl pymax x := by
  induction xs with
  | nil => intro x; exact le_refl x
  | cons y ys ih =>
    intro x
    exact le_trans (by rw [pymax_eq_max]; exact le_max_left x y) (ih (pymax x y))

lemma foldl_min_le (xs : List ℚ) : ∀ (x : ℚ), xs.foldl pymin x ≤ x := by
  induction xs with
  | nil => intro x; exact le_refl x
  | cons y ys ih =>
    intro x
    exact le_trans (ih (pymin x y)) (by rw [pymin_eq_min]; exact min_le_left x y)

lemma listMin_le_listMax (l : List ℚ) (h : l ≠ []) : listMin l ≤ listMax l := by
  cases l with
  | nil => exact absurd rfl h
  | cons x xs => exact le_trans (foldl_min_le xs x) (le_foldl_max xs x)

lemma option_toList_length_le_one {α : Type} (o : Option α) : o.toList.length ≤ 1 := by
  cases o <;> simp [Option.toList]

lemma multiplier_fold_band (outs : List Outcome) :
    ∀ (m : ℚ), 0.5 ≤ m → m ≤ 1.5 →
      0.5 ≤ outs.foldl (fun m o => pymax 0.5 (pymin 1.5 (m + adjustment o * 4))) m ∧
      outs.foldl (fun m o => pymax 0.5 (pymin 1.5 (m + adjustment o * 4))) m ≤ 1.5 := by
  induction outs with
  | nil => intro m h1 h2; exact ⟨h1, h2⟩
  | cons o rest ih =>
    intro m _ _
    refine ih _ ?_ ?_
    · simp only [pymax_eq_max, pymin_eq_min]
      exact le_max_left _ _
    · simp only [pymax_eq_max, pymin_eq_min]
      exact max_le (by norm_num) (min_le_left _ _)

lemma update_htf_structure_m15 (s : EngineState) :
    (update_htf_structure s).m15 = s.m15 := by
  unfold update_htf_structure
  split_ifs <;> rfl

lemma update_htf_structure_spec (s : EngineState) (h : 20 ≤ s.m15.length) :
    (update_htf_structure s).dealing_range.high = listMax (lastN 20 s.m15) ∧
    (update_htf_structure s).dealing_range.low = listMin (lastN 20 s.m15) ∧
    (update_htf_structure s).dealing_range.eq =
      ((update_htf_structure s).dealing_range.high +
        (update_htf_structure s).dealing_range.low) / 2 := by
  unfold update_htf_structure
  rw [if_neg (not_lt.mpr h)]
  exact ⟨rfl, rfl, rfl⟩

/-! ## Claim theorems -/

/-- C2: for every confidence input `c` and every multiplier value,
`get_adaptive_risk` returns the spec's base tier (0.1 below 0.70, 0.4 on
[0.70, 0.85), 0.8 at or above 0.85) times the confidence multiplier, clamped
to the hard band [0.1, 0.8], and the returned risk always lies in that
band. -/
theorem get_adaptive_risk_tiered_and_banded (c m : ℚ) :
    get_adaptive_risk m c = max 0.1 (min 0.8 (specRiskTier c * m)) ∧
    0.1 ≤ get_adaptive_risk m c ∧ get_adaptive_risk m c ≤ 0.8 ∧
    (c < 0.7 → specRiskTier c = 0.1) ∧
    (0.7 ≤ c ∧ c < 0.85 → specRiskTier c = 0.4) ∧
    (0.85 ≤ c → specRiskTier c = 0.8) := by
  have h1 : get_adaptive_risk m c = max 0.1 (min 0.8 (specRiskTier c * m)) := by
    unfold get_adaptive_risk specRiskTier
    rw [pymax_eq_max, pymin_eq_min]
  refine ⟨h1, ?_, ?_, ?_, ?_, ?_⟩
  · rw [h1]; exact le_max_left _ _
  · rw [h1]; exact max_le (by norm_num) (min_le_left _ _)
  · intro h; unfold specRiskTier; rw [if_pos h]
  · rintro ⟨ha, hb⟩; unfold specRiskTier; rw [if_neg (not_lt.mpr ha), if_pos hb]
  · intro h
    unfold specRiskTier
    rw [if_neg (not_lt.mpr (le_trans (by norm_num) h)), if_neg (not_lt.mpr h)]

/-- Witness for C2 at confidence 0.9 and multiplier 2: the tier is 0.8 and
the result is clamped back into the band, to 0.8. -/
theorem get_adaptive_risk_tiered_and_banded_witness :
    (0.85 : ℚ) ≤ 0.9 ∧ specRiskTier 0.9 = 0.8 ∧ get_adaptive_risk 2 0.9 = 0.8 :=
  ⟨by norm_num, (get_adaptive_risk_tiered_and_banded 0.9 2).2.2.2.2.2 (by norm_num),
   by decide⟩

/-- C8: `record_outcome` appends exactly one record to the performance
history, moves the confidence multiplier by +0.02 on a win and -0.02 on a
loss (0.005 base times 4) clamped to [0.5, 1.5], and for every sequence of
outcomes folded from the initial multiplier 1.0 the multiplier stays in
[0.5, 1.5]. -/
theorem record_outcome_claim {φ : Type} (s : LearningState φ) (f : φ)
    (o : Outcome) (outs : List Outcome) :
    (record_outcome s f o).1.performance_history =
      s.performance_history ++ [(f, o)] ∧
    (record_outcome s f o).1.confidence_multiplier =
      max 0.5 (min 1.5 (s.confidence_multiplier +
        (if o = .win then 0.02 else -0.02))) ∧
    0.5 ≤ multiplier_after outs ∧ multiplier_after outs ≤ 1.5 := by
  refine ⟨rfl, ?_, ?_, ?_⟩
  · cases o <;>
      simp only [record_outcome, adjustment, pymax_eq_max, pymin_eq_min,
        reduceCtorEq, if_true, if_false, reduceIte] <;> norm_num
  · exact (multiplier_fold_band outs 1 (by norm_num) (by norm_num)).1
  · exact (multiplier_fold_band outs 1 (by norm_num) (by norm_num)).2

/-- C3: with a coherent dealing range (low ≤ high, the only shape the
engine ever stores), `_check_sweeps` reports a buy-side sweep iff the price
strictly exceeds a strictly positive range high, a sell-side sweep iff the
price is strictly below a strictly positive range low, and no sweep
otherwise; equality with an extreme is not a sweep and zero extremes never
trigger. -/
theorem check_sweeps_claim (dr : DealingRange) (price : ℚ)
    (h : dr.low ≤ dr.high) :
    (check_sweeps dr price = some .buySide ↔ 0 < dr.high ∧ dr.high < price) ∧
    (check_sweeps dr price = some .sellSide ↔ 0 < dr.low ∧ price < dr.low) ∧
    (check_sweeps dr price = none ↔
      ¬(0 < dr.high ∧ dr.high < price) ∧ ¬(0 < dr.low ∧ price < dr.low)) := by
  unfold check_sweeps
  split_ifs with h1 h2
  · refine ⟨iff_of_true rfl h1, iff_of_false (by simp) ?_, iff_of_false (by simp) ?_⟩
    · rintro ⟨_, hc⟩
      exact absurd hc (not_lt.mpr (le_of_lt (lt_of_le_of_lt h h1.2)))
    · rintro ⟨hc, _⟩; exact hc h1
  · refine ⟨iff_of_false (by simp) h1, iff_of_true rfl h2,
      iff_of_false (by simp) ?_⟩
    rintro ⟨_, hc⟩; exact hc h2
  · exact ⟨iff_of_false (by simp) h1, iff_of_false (by simp) h2,
      iff_of_true rfl ⟨h1, h2⟩⟩

/-- Witness for C3 on the spec's own example range {high: 110, low: 90}:
price 110.01 is a buy-side sweep, price exactly 110 is no sweep. -/
theorem check_sweeps_claim_witness :
    (90 : ℚ) ≤ 110 ∧
    check_sweeps ⟨110, 90, 100⟩ 110.01 = some .buySide ∧
    check_sweeps ⟨110, 90, 100⟩ 110 = none :=
  ⟨by norm_num,
   (check_sweeps_claim ⟨110, 90, 100⟩ 110.01 (by norm_num)).1.mpr (by norm_num),
   (check_sweeps_claim ⟨110, 90, 100⟩ 110 (by norm_num)).2.2.mpr (by norm_num)⟩

/-- C9: after every reference-timeframe (15m) ingest that leaves at least 20
buffered observations, the dealing range is the max/min over the most recent
20 observations, `eq` is exactly their midpoint, and high ≥ low. -/
theorem dealing_range_midpoint_claim (s : EngineState) (price : ℚ)
    (h : 20 ≤ (update_data s price 15).m15.length) :
    (update_data s price 15).dealing_range.high =
      listMax (lastN 20 (update_data s price 15).m15) ∧
    (update_data s price 15).dealing_range.low =
      listMin (lastN 20 (update_data s price 15).m15) ∧
    (update_data s price 15).dealing_range.eq =
      ((update_data s price 15).dealing_range.high +
        (update_data s price 15).dealing_range.low) / 2 ∧
    (update_data s price 15).dealing_range.low ≤
      (update_data s price 15).dealing_range.high := by
  have hred : update_data s price 15 =
      update_htf_structure { s with m15 := push_bounded s.m15 price } := rfl
  have hm15 : (update_data s price 15).m15 =
      ({ s with m15 := push_bounded s.m15 price } : EngineState).m15 := by
    rw [hred, update_htf_structure_m15]
  have h' : 20 ≤ ({ s with m15 := push_bounded s.m15 price } : EngineState).m15.length := by
    rw [hm15] at h; exact h
  have hspec := update_htf_structure_spec { s with m15 := push_bounded s.m15 price } h'
  rw [hm15, hred]
  refine ⟨hspec.1, hspec.2.1, hspec.2.2, ?_⟩
  rw [hspec.1, hspec.2.1]
  have h'' : 20 ≤ (push_bounded s.m15 price).length := h'
  apply listMin_le_listMax
  intro hnil
  have hlen := congrArg List.length hnil
  simp only [lastN, List.length_drop, List.length_nil] at hlen
  omega

set_option maxRecDepth 10000 in
/-- Witness for C9: nineteen buffered 15m prices at 100 plus one ingest at
101 reach exactly 20 observations, and the recomputed range satisfies
low ≤ high. -/
theorem dealing_range_midpoint_claim_witness :
    20 ≤ (update_data s_c9 101 15).m15.length ∧
    (update_data s_c9 101 15).dealing_range.low ≤
      (update_data s_c9 101 15).dealing_range.high :=
  ⟨by decide, (dealing_range_midpoint_claim s_c9 101 (by decide)).2.2.2⟩

set_option maxRecDepth 100000 in
/-- C1 is falsified by the code: `ict_strategy.py` never imports pandas, so
the `pd.DataFrame(...)` call on line 158 raises `NameError` whenever
`detect_setup` runs with an active sweep, no fresh sweep at the current
price, and at least 10 observations in some 1m-5m buffer.  The state
`s_c1_b` below is reached purely through the public API (20 reference ticks
at 100, 10 one-minute ticks at 100, then `detect_setup(101)` which activates
a buy-side sweep), and the very next `detect_setup(100)` raises instead of
completing. -/
theorem detect_setup_raises_name_error :
    (detect_setup s_c1_b 100 none false).1 = .error .nameErrorPd ∧
    s_c1_b.active_sweep.isSome = true ∧ 10 ≤ s_c1_b.m1.length := by
  refine ⟨rfl, by decide, by decide⟩

lemma bearish_pair_eq_some (tolerance : ℕ) (pp sp : Pivots) (a b : Pivot)
    (h : bearish_pair tolerance pp sp = some (a, b)) :
    ∃ p2 s2, last2 pp.highs = some (p2, a) ∧ last2 sp.highs = some (s2, b) ∧
      p2.price < a.price ∧ b.price ≤ s2.price ∧ idx_gap a b ≤ tolerance := by
  unfold bearish_pair at h
  split at h
  · split_ifs at h with hcond
    simp only [Option.some.injEq, Prod.mk.injEq] at h
    obtain ⟨rfl, rfl⟩ := h
    rename_i heq1 heq2
    exact ⟨_, _, heq1, heq2, hcond.1, hcond.2.1, hcond.2.2⟩
  · exact absurd h (by simp)

lemma bullish_pair_eq_some (tolerance : ℕ) (pp sp : Pivots) (a b : Pivot)
    (h : bullish_pair tolerance pp sp = some (a, b)) :
    ∃ p2 s2, last2 pp.lows = some (p2, a) ∧ last2 sp.lows = some (s2, b) ∧
      a.price < p2.price ∧ s2.price ≤ b.price ∧ idx_gap a b ≤ tolerance := by
  unfold bullish_pair at h
  split at h
  · split_ifs at h with hcond
    simp only [Option.some.injEq, Prod.mk.injEq] at h
    obtain ⟨rfl, rfl⟩ := h
    rename_i heq1 heq2
    exact ⟨_, _, heq1, heq2, hcond.1, hcond.2.1, hcond.2.2⟩
  · exact absurd h (by simp)

lemma alignment_score_bounds (g t : ℕ) (hg : g ≤ t) (ht : 0 < t) :
    0 ≤ 1 - (g : ℚ) / (t : ℚ) ∧ 1 - (g : ℚ) / (t : ℚ) ≤ 1 := by
  have ht' : (0 : ℚ) < t := by exact_mod_cast ht
  constructor
  · have hle : (g : ℚ) / t ≤ 1 := (div_le_one ht').mpr (by exact_mod_cast hg)
    linarith
  · have hge : 0 ≤ (g : ℚ) / t := div_nonneg (by positivity) ht'.le
    linarith

/-- C4: the engine stores at most one active sweep (the slot holds zero or
one events), and `detect_setup` leaves the slot untouched unless a fresh
sweep is detected at the current price, in which case the fresh event is
installed (superseding — i.e. abandoning — any prior one, which is the
spec's other resolution mode besides selection-and-reset; the
selection-reset path clears the slot rather than overwriting it). -/
theorem detect_setup_sweep_slot (s : EngineState) (price : ℚ)
    (secondary : Option ℚ) (rand_gt : Bool) :
    (detect_setup s price secondary rand_gt).2.active_sweep.toList.length ≤ 1 ∧
    ((check_sweeps s.dealing_range price = none ∧
        (detect_setup s price secondary rand_gt).2.active_sweep = s.active_sweep) ∨
      (∃ sw, check_sweeps s.dealing_range price = some sw ∧
        (detect_setup s price secondary rand_gt).2.active_sweep =
          some ⟨sw, price, calculate_sweep_aggression s.dealing_range price sw⟩)) := by
  refine ⟨option_toList_length_le_one _, ?_⟩
  rcases hc : check_sweeps s.dealing_range price with _ | sw
  · left
    refine ⟨rfl, ?_⟩
    simp only [detect_setup, hc]
    rcases h2 : s.active_sweep with _ | ev
    · exact h2
    · split <;> first | exact h2 | (split <;> exact h2)
  · right
    refine ⟨sw, rfl, ?_⟩
    simp only [detect_setup, hc]
    split <;> rfl

/-- C10: whenever either input series yields zero confirmed high pivots,
`analyze_divergence` returns the all-zero empty result — regardless of how
many low pivots exist and whether they satisfy the bullish divergence
condition — so bullish divergence is never reported unless both series also
have at least one high pivot. -/
theorem analyze_divergence_requires_high_pivots (w tolerance : ℕ)
    (primary_df secondary_df : List Bar) (context_levels : List ℚ)
    (h : (detect_fractal_pivots w primary_df).highs = [] ∨
         (detect_fractal_pivots w secondary_df).highs = []) :
    analyze_divergence w tolerance primary_df secondary_df context_levels =
      empty_result := by
  unfold analyze_divergence
  rw [if_pos h]

set_option maxRecDepth 100000 in
/-- Witness for C10 on concrete 20-bar series: both series have strictly
increasing highs (zero high pivots) while holding two low pivots each that
satisfy the full bullish condition (primary lower low 50 → 40, secondary
equal lows 45 = 45, index gap 0 ≤ 3), yet the result is the empty one. -/
theorem analyze_divergence_requires_high_pivots_witness :
    (detect_fractal_pivots 5 P10).highs = [] ∧
    2 ≤ (detect_fractal_pivots 5 P10).lows.length ∧
    2 ≤ (detect_fractal_pivots 5 S10).lows.length ∧
    (bullish_pair 3 (detect_fractal_pivots 5 P10)
      (detect_fractal_pivots 5 S10)).isSome = true ∧
    analyze_divergence 5 3 P10 S10 [] = empty_result :=
  ⟨by decide, by decide, by decide, by decide,
   analyze_divergence_requires_high_pivots 5 3 P10 S10 [] (Or.inl (by decide))⟩

/-- C5 as stated is false (see `analyze_divergence_alignment_cex`: a gap
exactly equal to the tolerance passes the alignment check and yields score
0, which is outside (0, 1]).  Amended claim: whenever `analyze_divergence`
returns a non-`None` result, the returned `time_alignment_score` equals
`1 - |primaryPivotIndex - secondaryPivotIndex| / tolerance` for the pair of
pivots the result is built from (the last two high pivots for bearish, the
last two low pivots for bullish), the index gap is at most the tolerance,
and the score lies in the CLOSED interval [0, 1] — attaining 0 exactly when
the gap equals the tolerance. -/
theorem analyze_divergence_alignment_amended (w tolerance : ℕ)
    (primary_df secondary_df : List Bar) (context_levels : List ℚ)
    (htol : 0 < tolerance)
    (hne : (analyze_divergence w tolerance primary_df secondary_df
      context_levels).smt_type ≠ none) :
    ∃ pp sp : Pivot,
      (analyze_divergence w tolerance primary_df secondary_df
        context_levels).swing_reference_primary = pp.price ∧
      (analyze_divergence w tolerance primary_df secondary_df
        context_levels).swing_reference_secondary = sp.price ∧
      idx_gap pp sp ≤ tolerance ∧
      (analyze_divergence w tolerance primary_df secondary_df
        context_levels).time_alignment_score =
        1 - (idx_gap pp sp : ℚ) / (tolerance : ℚ) ∧
      0 ≤ (analyze_divergence w tolerance primary_df secondary_df
        context_levels).time_alignment_score ∧
      (analyze_divergence w tolerance primary_df secondary_df
        context_levels).time_alignment_score ≤ 1 ∧
      ((analyze_divergence w tolerance primary_df secondary_df
          context_levels).smt_type = some .bearish →
        ∃ p2 s2, last2 (detect_fractal_pivots w primary_df).highs = some (p2, pp) ∧
          last2 (detect_fractal_pivots w secondary_df).highs = some (s2, sp)) ∧
      ((analyze_divergence w tolerance primary_df secondary_df
          context_levels).smt_type = some .bullish →
        ∃ p2 s2, last2 (detect_fractal_pivots w primary_df).lows = some (p2, pp) ∧
          last2 (detect_fractal_pivots w secondary_df).lows = some (s2, sp)) := by
  unfold analyze_divergence at hne ⊢
  split_ifs at hne ⊢ with hempty
  · exact absurd rfl hne
  · rcases hb : bearish_pair tolerance (detect_fractal_pivots w primary_df)
        (detect_fractal_pivots w secondary_df) with _ | ⟨a, b⟩
    · rcases hl : bullish_pair tolerance (detect_fractal_pivots w primary_df)
          (detect_fractal_pivots w secondary_df) with _ | ⟨a, b⟩
      · rw [hb, hl] at hne
        exact absurd rfl hne
      · obtain ⟨p2, s2, h1, h2, _, _, hgap⟩ :=
          bullish_pair_eq_some tolerance _ _ a b hl
        refine ⟨a, b, rfl, rfl, hgap, rfl,
          (alignment_score_bounds (idx_gap a b) tolerance hgap htol).1,
          (alignment_score_bounds (idx_gap a b) tolerance hgap htol).2,
          ?_, fun _ => ⟨p2, s2, h1, h2⟩⟩
        intro hcon
        exact SmtTy.noConfusion (Option.some.inj hcon)
    · obtain ⟨p2, s2, h1, h2, _, _, hgap⟩ :=
        bearish_pair_eq_some tolerance _ _ a b hb
      refine ⟨a, b, rfl, rfl, hgap, rfl,
        (alignment_score_bounds (idx_gap a b) tolerance hgap htol).1,
        (alignment_score_bounds (idx_gap a b) tolerance hgap htol).2,
        fun _ => ⟨p2, s2, h1, h2⟩, ?_⟩
      intro hcon
      exact SmtTy.noConfusion (Option.some.inj hcon)

set_option maxRecDepth 100000 in
/-- Counterexample to C5 as stated: on the concrete series `P5`/`S5` the
bearish branch fires with the primary pivot at index 12 and the secondary
pivot at index 9, an index gap of exactly the tolerance 3, so the alignment
check (gap ≤ tolerance) passes but `time_alignment_score = 1 - 3/3 = 0`,
which does not lie in the claimed half-open interval (0, 1]. -/
theorem analyze_divergence_alignment_cex :
    (analyze_divergence 5 3 P5 S5 []).smt_type = some .bearish ∧
    (analyze_divergence 5 3 P5 S5 []).time_alignment_score = 0 ∧
    ¬(0 < (analyze_divergence 5 3 P5 S5 []).time_alignment_score) :=
  ⟨by decide, by decide, by decide⟩

set_option maxRecDepth 100000 in
/-- Witness for the amended C5 on the series `P5`/`S5b` (index gap 1 < 3):
the result is non-`None` and the amended theorem applies. -/
theorem analyze_divergence_alignment_amended_witness :
    0 < 3 ∧ (analyze_divergence 5 3 P5 S5b []).smt_type ≠ none ∧
    (∃ pp sp : Pivot,
      (analyze_divergence 5 3 P5 S5b []).swing_reference_primary = pp.price ∧
      (analyze_divergence 5 3 P5 S5b []).swing_reference_secondary = sp.price ∧
      idx_gap pp sp ≤ 3 ∧
      (analyze_divergence 5 3 P5 S5b []).time_alignment_score =
        1 - (idx_gap pp sp : ℚ) / (3 : ℚ) ∧
      0 ≤ (analyze_divergence 5 3 P5 S5b []).time_alignment_score ∧
      (analyze_divergence 5 3 P5 S5b []).time_alignment_score ≤ 1 ∧
      ((analyze_divergence 5 3 P5 S5b []).smt_type = some .bearish →
        ∃ p2 s2, last2 (detect_fractal_pivots 5 P5).highs = some (p2, pp) ∧
          last2 (detect_fractal_pivots 5 S5b).highs = some (s2, sp)) ∧
      ((analyze_divergence 5 3 P5 S5b []).smt_type = some .bullish →
        ∃ p2 s2, last2 (detect_fractal_pivots 5 P5).lows = some (p2, pp) ∧
          last2 (detect_fractal_pivots 5 S5b).lows = some (s2, sp))) :=
  ⟨by decide, by decide,
   analyze_divergence_alignment_amended 5 3 P5 S5b [] (by decide) (by decide)⟩

lemma inner_bonus_eq_count (s1 : Setup) (i : ℕ) :
    ∀ (l : List Setup) (j : ℕ),
      inner_bonus s1 i j l = 0.15 * (nest_count s1 i j l : ℚ) := by
  intro l
  induction l with
  | nil => intro j; simp [inner_bonus, nest_count]
  | cons s2 rest ih =>
    intro j
    simp only [inner_bonus, nest_count, ih]
    split_ifs <;> push_cast <;> ring

lemma nest_count_pos (s1 : Setup) (i : ℕ) :
    ∀ (l : List Setup) (k j : ℕ) (s2 : Setup),
      l.get? j = some s2 → k + j ≠ i →
      s2.fvg_bottom ≤ s1.fvg_bottom → s1.fvg_top ≤ s2.fvg_top →
      1 ≤ nest_count s1 i k l := by
  intro l
  induction l with
  | nil => intro k j s2 h; simp at h
  | cons a rest ih =>
    intro k j s2 hj hki hb ht
    cases j with
    | zero =>
      simp only [List.get?] at hj
      injection hj with hj
      subst hj
      have hcond : k ≠ i ∧ a.fvg_bottom ≤ s1.fvg_bottom ∧ s1.fvg_top ≤ a.fvg_top :=
        ⟨by simpa using hki, hb, ht⟩
      simp only [nest_count, if_pos hcond]
      exact Nat.le_add_right 1 _
    | succ j' =>
      have hj' : rest.get? j' = some s2 := by simpa [List.get?] using hj
      have hki' : (k + 1) + j' ≠ i := by omega
      have := ih (k + 1) j' s2 hj' hki' hb ht
      simp only [nest_count]
      split_ifs <;> omega

lemma apply_confluence_get (setups : List Setup) (i : ℕ) (hi : i < setups.length) :
    (apply_confluence setups).get? i =
      some { setups.getD i default with
             confluence_score := inner_bonus (setups.getD i default) i 0 setups,
             score := pymin ((setups.getD i default).score +
               inner_bonus (setups.getD i default) i 0 setups) 1 } := by
  unfold apply_confluence
  rw [List.get?_map, List.get?_range hi]
  rfl

/-- C7: whenever one candidate's gap range `[fvg_bottom, fvg_top]` is a
strict subset of another's, the confluence pass gives the nested candidate a
bonus of exactly 0.15 per nesting relationship it participates in (the
count is at least 1, since the given strict nesting is itself counted), and
its final score is `min(originalScore + 0.15 × count, 1.0)` — the 0.15
increments are added before the 1.0 cap. -/
theorem apply_confluence_strict_nesting_bonus (setups : List Setup) (i j : ℕ)
    (si sj : Setup) (hi : setups.get? i = some si) (hj : setups.get? j = some sj)
    (hij : i ≠ j)
    (hbot : sj.fvg_bottom ≤ si.fvg_bottom) (htop : si.fvg_top ≤ sj.fvg_top)
    (hstrict : sj.fvg_bottom < si.fvg_bottom ∨ si.fvg_top < sj.fvg_top) :
    1 ≤ nest_count si i 0 setups ∧
    ((apply_confluence setups).getD i default).confluence_score =
      0.15 * (nest_count si i 0 setups : ℚ) ∧
    ((apply_confluence setups).getD i default).score =
      min (si.score + 0.15 * (nest_count si i 0 setups : ℚ)) 1 := by
  have hlen : i < setups.length := by
    rcases List.get?_eq_some.mp hi with ⟨h, _⟩
    exact h
  have hgd : setups.getD i default = si := by
    rw [List.getD_eq_get?, hi]
    rfl
  have hcount : 1 ≤ nest_count si i 0 setups :=
    nest_count_pos si i setups 0 j sj hj (by simpa using hij.symm) hbot htop
  have hget := apply_confluence_get setups i hlen
  rw [hgd] at hget
  refine ⟨hcount, ?_, ?_⟩
  · rw [List.getD_eq_get?, hget, Option.getD_some, inner_bonus_eq_count]
  · rw [List.getD_eq_get?, hget, Option.getD_some]
    show pymin (si.score + inner_bonus si i 0 setups) 1 = _
    rw [pymin_eq_min, inner_bonus_eq_count]

/-- Witness for C7: candidate `A7` (gap range [2, 3]) is strictly nested in
`B7` (gap range [1, 4]); in the two-candidate list its nest count is 1 and
its score rises from 0.5 to min(0.5 + 0.15, 1) = 0.65. -/
theorem apply_confluence_strict_nesting_bonus_witness :
    1 ≤ nest_count A7 0 0 [A7, B7] ∧
    ((apply_confluence [A7, B7]).getD 0 default).confluence_score =
      0.15 * (nest_count A7 0 0 [A7, B7] : ℚ) ∧
    ((apply_confluence [A7, B7]).getD 0 default).score =
      min (A7.score + 0.15 * (nest_count A7 0 0 [A7, B7] : ℚ)) 1 :=
  apply_confluence_strict_nesting_bonus [A7, B7] 0 1 A7 B7 rfl rfl
    (by decide) (by decide) (by decide) (Or.inl (by decide))

lemma max_by_first_spec {α : Type} (f : α → ℚ) :
    ∀ (l : List α), l ≠ [] →
      ∃ (i : ℕ) (m : α), max_by_first f l = some m ∧ l.get? i = some m ∧
        (∀ c ∈ l, f c ≤ f m) ∧
        (∀ j c, j < i → l.get? j = some c → f c < f m) := by
  intro l
  induction l with
  | nil => intro h; exact absurd rfl h
  | cons x xs ih =>
    intro _
    by_cases hxs : xs = []
    · subst hxs
      refine ⟨0, x, rfl, rfl, ?_, ?_⟩
      · intro c hc
        rw [List.mem_singleton] at hc
        subst hc
        exact le_refl _
      · intro j c hj
        exact absurd hj (Nat.not_lt_zero j)
    · obtain ⟨i', m', hmax', hget', hall', hfirst'⟩ := ih hxs
      by_cases hlt : f x < f m'
      · refine ⟨i' + 1, m', ?_, by simpa [List.get?] using hget', ?_, ?_⟩
        · simp only [max_by_first, hmax', if_pos hlt]
        · intro c hc
          rcases List.mem_cons.mp hc with rfl | hc
          · exact hlt.le
          · exact hall' c hc
        · intro j c hj hjget
          cases j with
          | zero =>
            simp only [List.get?] at hjget
            injection hjget with hjget
            subst hjget
            exact hlt
          | succ j' =>
            exact hfirst' j' c (Nat.lt_of_succ_lt_succ hj)
              (by simpa [List.get?] using hjget)
      · refine ⟨0, x, ?_, rfl, ?_, ?_⟩
        · simp only [max_by_first, hmax', if_neg hlt]
        · intro c hc
          rcases List.mem_cons.mp hc with rfl | hc
          · exact le_refl _
          · exact le_trans (hall' c hc) (not_lt.mp hlt)
        · intro j c hj
          exact absurd hj (Nat.not_lt_zero j)

lemma apply_confluence_length (setups : List Setup) :
    (apply_confluence setups).length = setups.length := by
  unfold apply_confluence
  rw [List.length_map, List.length_range]

/-- C6: `select_best_setup` returns `none` when no candidate validates;
otherwise, among the post-confluence candidates (in timeframe iteration
order) there is a first candidate attaining the maximal final score —
every candidate scores at most it and every earlier candidate scores
strictly less — and the selector returns exactly that candidate if its
score is at least the minimum-quality threshold 0.60, and `none`
otherwise. -/
theorem select_best_setup_claim (w : Weights) (mtf_data : List (ℕ × List Bar))
    (htf_bias : Option Bias) (htf_sweep_extreme : ℚ) :
    (valid_setups w mtf_data htf_bias htf_sweep_extreme = [] →
      select_best_setup w mtf_data htf_bias htf_sweep_extreme = none) ∧
    (valid_setups w mtf_data htf_bias htf_sweep_extreme ≠ [] →
      ∃ (i : ℕ) (best : Setup),
        (apply_confluence (valid_setups w mtf_data htf_bias
          htf_sweep_extreme)).get? i = some best ∧
        (∀ c ∈ apply_confluence (valid_setups w mtf_data htf_bias
          htf_sweep_extreme), c.score ≤ best.score) ∧
        (∀ j c, j < i →
          (apply_confluence (valid_setups w mtf_data htf_bias
            htf_sweep_extreme)).get? j = some c → c.score < best.score) ∧
        select_best_setup w mtf_data htf_bias htf_sweep_extreme =
          (if 0.6 ≤ best.score then some best else none)) := by
  constructor
  · intro h
    unfold select_best_setup
    rw [h]
    rfl
  · intro h
    have hfin : apply_confluence (valid_setups w mtf_data htf_bias
        htf_sweep_extreme) ≠ [] := by
      intro hc
      apply h
      have hlen := congrArg List.length hc
      rw [apply_confluence_length, List.length_nil] at hlen
      exact List.length_eq_zero.mp hlen
    obtain ⟨i, m, hmax, hget, hall, hfirst⟩ :=
      max_by_first_spec Setup.score _ hfin
    refine ⟨i, m, hget, hall, hfirst, ?_⟩
    unfold select_best_setup
    have hemp : (valid_setups w mtf_data htf_bias htf_sweep_extreme).isEmpty
        = false := by
      rcases hv : valid_setups w mtf_data htf_bias htf_sweep_extreme with _ | ⟨v, vs⟩
      · exact absurd hv h
      · rfl
    rw [hemp, hmax]
    rfl

set_option maxRecDepth 100000 in
/-- Witness for C6, exercising both branches: with an empty timeframe map
there are no valid candidates and the selector returns `none`; on the
concrete one-candidate input `M6` under discount bias the candidate set is
non-empty and the first-maximum/threshold characterization applies. -/
theorem select_best_setup_claim_witness :
    select_best_setup default_weights [] none 0 = none ∧
    (∃ (i : ℕ) (best : Setup),
      (apply_confluence (valid_setups default_weights M6 (some .discount)
        5)).get? i = some best ∧
      (∀ c ∈ apply_confluence (valid_setups default_weights M6 (some .discount)
        5), c.score ≤ best.score) ∧
      (∀ j c, j < i →
        (apply_confluence (valid_setups default_weights M6 (some .discount)
          5)).get? j = some c → c.score < best.score) ∧
      select_best_setup default_weights M6 (some .discount) 5 =
        (if 0.6 ≤ best.score then some best else none)) :=
  ⟨(select_best_setup_claim default_weights [] none 0).1 rfl,
   (select_best_setup_claim default_weights M6 (some .discount) 5).2 (by decide)⟩

end NexusTrading
